import Mathlib

/-!
Shallow embedding of the `datalayer` repository's data-access wrappers.

The repository contains three near-duplicate MySQL wrapper classes and two
near-duplicate SQLite wrapper classes:

* `classes.py`                — `MysqlConnectorManager`, `SqliteDatamanager`
* `mysql_connector_manager.py`— `MysqlConnectorManager` (same `init_conn` body
                                as `classes.py`, different `select`/`query`
                                error branches)
* `mysql_data_manager.py`     — `MysqlDataManager` (re-raises on exhaustion)
* `sqlite3_data_manager.py`   — `SqliteDataManager`

The database driver (`mysql.connector`, `sqlite3`) is third-party code: it is
represented by explicit parameters (a connect oracle indexed by the 1-based
call number, and statement-execution oracles), so all theorems quantify over
driver behaviour.  The cursor's affected-row count starts at `-1` and is set
by each execute call, per the Python DB-API that both drivers implement.
-/

/-- An open database connection handle (opaque to the wrapper code; the `id`
only serves to tell distinct handles apart in theorems). -/
structure Conn where
  id : Nat
deriving DecidableEq

/-- Errors raised by the database driver. -/
inductive DriverErr
  /-- `mysql.connector.Error` / `IOError` raised by the a-th `connect` call. -/
  | connRefused (callIdx : Nat)
  /-- An error raised while executing a statement or script. -/
  | execFail (code : Nat)
deriving DecidableEq

/-- A Python-level exception escaping a wrapper method. -/
inductive PyErr
  /-- A driver error re-raised by the wrapper. -/
  | driver (e : DriverErr)
  /-- `AttributeError`: a method was invoked on `None`
  (e.g. `None.cursor()`); not caught by the wrappers' `except` clauses. -/
  | attributeError
deriving DecidableEq

/-- Outcome of a Python call: a returned value, a returned `None`, or a
propagated exception. -/
inductive PyResult (α : Type)
  | val (a : α)
  | none
  | raised (e : PyErr)
deriving DecidableEq

/-- One row of parameters or results. -/
abbrev Row := List Int

/-- Result of one run of the connection-retry loop: the value produced,
the number of `connect` calls made, and the list of back-off sleeps (in
seconds, in order) performed between attempts. -/
structure RunResult (α : Type) where
  result : α
  attemptsMade : Nat
  sleeps : List Nat
deriving DecidableEq

/-- `MysqlConnectorManager.init_conn` retry loop, identical in `classes.py`
(lines 24-52) and `mysql_connector_manager.py` (lines 17-50):

```
attempt = 1
while attempt < attempts + 1:
    try:
        return mysql.connector.connect(**self.config)
    except (mysql.connector.Error, IOError) as err:
        if attempts is attempt:
            return None
        ...
        sleep(delay ** attempt)
        attempt += 1
return None
```

`connect a` is the outcome of the a-th `connect(**self.config)` call
(1-based).  `attempts is attempt` is modelled as integer equality (CPython
identity on equal small ints).  `fuel` bounds the loop; the wrapper below
passes `attempts + 1`, which exceeds the loop's maximal iteration count, so
the `fuel = 0` branch is never reached from the wrapper. -/
def MysqlConnectorManager.init_conn_go (connect : Nat → Except DriverErr Conn)
    (attempts delay : Nat) : Nat → Nat → RunResult (Option Conn)
  | 0, _ => ⟨none, 0, []⟩
  | fuel + 1, attempt =>
    if attempt < attempts + 1 then
      match connect attempt with
      | .ok conn => ⟨some conn, 1, []⟩
      | .error _err =>
        if attempts = attempt then
          ⟨none, 1, []⟩
        else
          let rest := MysqlConnectorManager.init_conn_go connect attempts delay fuel (attempt + 1)
          ⟨rest.result, rest.attemptsMade + 1, delay ^ attempt :: rest.sleeps⟩
    else
      ⟨none, 0, []⟩

/-- `MysqlConnectorManager.init_conn(attempts, delay)` under the connect
oracle `connect`: the loop above started at `attempt = 1`. -/
def MysqlConnectorManager.init_conn (connect : Nat → Except DriverErr Conn)
    (attempts delay : Nat) : RunResult (Option Conn) :=
  MysqlConnectorManager.init_conn_go connect attempts delay (attempts + 1) 1

/-- `MysqlDataManager.init_conn` retry loop (`mysql_data_manager.py`,
lines 17-49).  Same loop as `MysqlConnectorManager.init_conn`, but on the
final failed attempt it executes `raise err` instead of `return None`, and
falling off the loop (possible only when `attempts < 1`) returns Python
`None` implicitly. -/
def MysqlDataManager.init_conn_go (connect : Nat → Except DriverErr Conn)
    (attempts delay : Nat) : Nat → Nat → RunResult (PyResult Conn)
  | 0, _ => ⟨.none, 0, []⟩
  | fuel + 1, attempt =>
    if attempt < attempts + 1 then
      match connect attempt with
      | .ok conn => ⟨.val conn, 1, []⟩
      | .error err =>
        if attempts = attempt then
          ⟨.raised (.driver err), 1, []⟩
        else
          let rest := MysqlDataManager.init_conn_go connect attempts delay fuel (attempt + 1)
          ⟨rest.result, rest.attemptsMade + 1, delay ^ attempt :: rest.sleeps⟩
    else
      ⟨.none, 0, []⟩

/-- `MysqlDataManager.init_conn(attempts, delay)` under the connect oracle
`connect`. -/
def MysqlDataManager.init_conn (connect : Nat → Except DriverErr Conn)
    (attempts delay : Nat) : RunResult (PyResult Conn) :=
  MysqlDataManager.init_conn_go connect attempts delay (attempts + 1) 1

/-- A connect oracle that fails deterministically on its first `K` calls and
succeeds from call `K + 1` on. -/
def failsThenOk (K : Nat) : Nat → Except DriverErr Conn :=
  fun a => if a ≤ K then .error (.connRefused a) else .ok ⟨a⟩

/-- A connect oracle for an unreachable host: every call fails. -/
def allFail : Nat → Except DriverErr Conn :=
  fun a => .error (.connRefused a)

example : MysqlConnectorManager.init_conn (failsThenOk 1) 3 2 =
    ⟨some ⟨2⟩, 2, [2]⟩ := by decide

example : MysqlConnectorManager.init_conn allFail 3 1 =
    ⟨none, 3, [1, 1]⟩ := by decide

example : MysqlDataManager.init_conn allFail 3 2 =
    ⟨.raised (.driver (.connRefused 3)), 3, [2, 4]⟩ := by decide

/-- Peeling one back-off sleep off the front of the sleep list. -/
theorem cons_pow_map (delay a m : Nat) :
    delay ^ a :: (List.range m).map (fun i => delay ^ (a + 1 + i)) =
      (List.range (m + 1)).map (fun i => delay ^ (a + i)) := by
  have hf : ((fun i => delay ^ (a + i)) ∘ Nat.succ) = fun i => delay ^ (a + 1 + i) := by
    funext i
    show delay ^ (a + Nat.succ i) = delay ^ (a + 1 + i)
    congr 1
    omega
  rw [List.range_succ_eq_map, List.map_cons, List.map_map, hf]
  simp

/-- The `1 + i` and `i + 1` spellings of the back-off exponents agree. -/
theorem map_pow_comm (delay n : Nat) :
    (List.range n).map (fun i => delay ^ (1 + i)) =
      (List.range n).map (fun i => delay ^ (i + 1)) := by
  congr 1
  funext i
  congr 1
  omega

/-- If every `connect` call from `attempt` through `attempts` fails, the
`classes.py` / `mysql_connector_manager.py` loop makes all the remaining
attempts, sleeps `delay ^ a` after each failed attempt `a` except the last,
and returns `None`. -/
theorem MysqlConnectorManager.init_conn_go_all_fail
    (connect : Nat → Except DriverErr Conn) (errOf : Nat → DriverErr)
    (attempts delay : Nat) :
    ∀ fuel attempt, 1 ≤ attempt → attempt ≤ attempts →
      attempts + 1 ≤ fuel + attempt →
      (∀ a, attempt ≤ a → a ≤ attempts → connect a = .error (errOf a)) →
      MysqlConnectorManager.init_conn_go connect attempts delay fuel attempt =
        ⟨none, attempts + 1 - attempt,
         (List.range (attempts - attempt)).map (fun i => delay ^ (attempt + i))⟩ := by
  intro fuel
  induction fuel with
  | zero => intro attempt h1 h2 h3 _; omega
  | succ fuel ih =>
    intro attempt h1 h2 h3 hfail
    have hlt : attempt < attempts + 1 := by omega
    simp only [MysqlConnectorManager.init_conn_go, if_pos hlt, hfail attempt le_rfl h2]
    by_cases he : attempts = attempt
    · simp [he]
    · rw [if_neg he]
      rw [ih (attempt + 1) (by omega) (by omega) (by omega)
        (fun a ha hb => hfail a (by omega) hb)]
      simp only [RunResult.mk.injEq]
      refine ⟨trivial, by omega, ?_⟩
      have hm : attempts - attempt = (attempts - (attempt + 1)) + 1 := by omega
      rw [hm]
      exact cons_pow_map delay attempt (attempts - (attempt + 1))

/-- If the calls before call `s` fail and call `s` succeeds, the
`classes.py` / `mysql_connector_manager.py` loop stops at call `s` and
returns the handle; no further attempts are made. -/
theorem MysqlConnectorManager.init_conn_go_success
    (connect : Nat → Except DriverErr Conn) (errOf : Nat → DriverErr)
    (attempts delay s : Nat) (c : Conn)
    (hs : connect s = .ok c) (hsA : s ≤ attempts) :
    ∀ fuel attempt, 1 ≤ attempt → attempt ≤ s →
      attempts + 1 ≤ fuel + attempt →
      (∀ a, attempt ≤ a → a < s → connect a = .error (errOf a)) →
      MysqlConnectorManager.init_conn_go connect attempts delay fuel attempt =
        ⟨some c, s + 1 - attempt,
         (List.range (s - attempt)).map (fun i => delay ^ (attempt + i))⟩ := by
  intro fuel
  induction fuel with
  | zero => intro attempt h1 h2 h3 _; omega
  | succ fuel ih =>
    intro attempt h1 h2 h3 hfail
    have hlt : attempt < attempts + 1 := by omega
    by_cases heq : attempt = s
    · subst heq
      simp [MysqlConnectorManager.init_conn_go, if_pos hlt, hs]
    · have hne : attempts ≠ attempt := by omega
      simp only [MysqlConnectorManager.init_conn_go, if_pos hlt,
        hfail attempt le_rfl (by omega), if_neg hne]
      rw [ih (attempt + 1) (by omega) (by omega) (by omega)
        (fun a ha hb => hfail a (by omega) hb)]
      simp only [RunResult.mk.injEq]
      refine ⟨trivial, by omega, ?_⟩
      have hm : s - attempt = (s - (attempt + 1)) + 1 := by omega
      rw [hm]
      exact cons_pow_map delay attempt (s - (attempt + 1))

/-- If every `connect` call from `attempt` through `attempts` fails, the
`mysql_data_manager.py` loop makes all the remaining attempts and re-raises
the error of the last call. -/
theorem MysqlDataManager.init_conn_go_exhausts
    (connect : Nat → Except DriverErr Conn) (errOf : Nat → DriverErr)
    (attempts delay : Nat) :
    ∀ fuel attempt, 1 ≤ attempt → attempt ≤ attempts →
      attempts + 1 ≤ fuel + attempt →
      (∀ a, attempt ≤ a → a ≤ attempts → connect a = .error (errOf a)) →
      MysqlDataManager.init_conn_go connect attempts delay fuel attempt =
        ⟨.raised (.driver (errOf attempts)), attempts + 1 - attempt,
         (List.range (attempts - attempt)).map (fun i => delay ^ (attempt + i))⟩ := by
  intro fuel
  induction fuel with
  | zero => intro attempt h1 h2 h3 _; omega
  | succ fuel ih =>
    intro attempt h1 h2 h3 hfail
    have hlt : attempt < attempts + 1 := by omega
    simp only [MysqlDataManager.init_conn_go, if_pos hlt, hfail attempt le_rfl h2]
    by_cases he : attempts = attempt
    · simp [he]
    · rw [if_neg he]
      rw [ih (attempt + 1) (by omega) (by omega) (by omega)
        (fun a ha hb => hfail a (by omega) hb)]
      simp only [RunResult.mk.injEq]
      refine ⟨trivial, by omega, ?_⟩
      have hm : attempts - attempt = (attempts - (attempt + 1)) + 1 := by omega
      rw [hm]
      exact cons_pow_map delay attempt (attempts - (attempt + 1))

/-- If the calls before call `s` fail and call `s` succeeds, the
`mysql_data_manager.py` loop stops at call `s` and returns the handle. -/
theorem MysqlDataManager.init_conn_go_connects
    (connect : Nat → Except DriverErr Conn) (errOf : Nat → DriverErr)
    (attempts delay s : Nat) (c : Conn)
    (hs : connect s = .ok c) (hsA : s ≤ attempts) :
    ∀ fuel attempt, 1 ≤ attempt → attempt ≤ s →
      attempts + 1 ≤ fuel + attempt →
      (∀ a, attempt ≤ a → a < s → connect a = .error (errOf a)) →
      MysqlDataManager.init_conn_go connect attempts delay fuel attempt =
        ⟨.val c, s + 1 - attempt,
         (List.range (s - attempt)).map (fun i => delay ^ (attempt + i))⟩ := by
  intro fuel
  induction fuel with
  | zero => intro attempt h1 h2 h3 _; omega
  | succ fuel ih =>
    intro attempt h1 h2 h3 hfail
    have hlt : attempt < attempts + 1 := by omega
    by_cases heq : attempt = s
    · subst heq
      simp [MysqlDataManager.init_conn_go, if_pos hlt, hs]
    · have hne : attempts ≠ attempt := by omega
      simp only [MysqlDataManager.init_conn_go, if_pos hlt,
        hfail attempt le_rfl (by omega), if_neg hne]
      rw [ih (attempt + 1) (by omega) (by omega) (by omega)
        (fun a ha hb => hfail a (by omega) hb)]
      simp only [RunResult.mk.injEq]
      refine ⟨trivial, by omega, ?_⟩
      have hm : s - attempt = (s - (attempt + 1)) + 1 := by omega
      rw [hm]
      exact cons_pow_map delay attempt (s - (attempt + 1))

/-- Sum of a mapped `List.range` as a `Finset.range` sum. -/
theorem sum_list_range_map (f : Nat → Nat) (n : Nat) :
    ((List.range n).map f).sum = ∑ i ∈ Finset.range n, f i := by
  induction n with
  | zero => simp
  | succ n ih =>
    rw [List.range_succ, List.map_append, List.sum_append, Finset.sum_range_succ, ih]
    simp

/-- Exhaustion behaviour of `MysqlConnectorManager.init_conn` (`classes.py`,
`mysql_connector_manager.py`): when every one of the `attempts` connect calls
fails, it makes exactly `attempts` calls, sleeps `delay ^ i` after the i-th
failure for `i = 1, …, attempts - 1`, and returns `None`. -/
theorem MysqlConnectorManager.init_conn_all_fail
    (connect : Nat → Except DriverErr Conn) (errOf : Nat → DriverErr)
    (attempts delay : Nat) (h1 : 1 ≤ attempts)
    (hfail : ∀ a, 1 ≤ a → a ≤ attempts → connect a = .error (errOf a)) :
    MysqlConnectorManager.init_conn connect attempts delay =
      ⟨none, attempts, (List.range (attempts - 1)).map (fun i => delay ^ (i + 1))⟩ := by
  have h := MysqlConnectorManager.init_conn_go_all_fail connect errOf attempts delay
    (attempts + 1) 1 le_rfl h1 (by omega) hfail
  rw [MysqlConnectorManager.init_conn, h, map_pow_comm, Nat.add_sub_cancel]

/-- Success behaviour of `MysqlConnectorManager.init_conn`: if calls `1, …, s-1`
fail and call `s ≤ attempts` succeeds, the gate returns that handle after
exactly `s` calls, with back-off sleeps `delay ^ 1, …, delay ^ (s - 1)`. -/
theorem MysqlConnectorManager.init_conn_first_ok
    (connect : Nat → Except DriverErr Conn) (errOf : Nat → DriverErr)
    (attempts delay s : Nat) (c : Conn)
    (hs : connect s = .ok c) (h1 : 1 ≤ s) (hsA : s ≤ attempts)
    (hfail : ∀ a, 1 ≤ a → a < s → connect a = .error (errOf a)) :
    MysqlConnectorManager.init_conn connect attempts delay =
      ⟨some c, s, (List.range (s - 1)).map (fun i => delay ^ (i + 1))⟩ := by
  have h := MysqlConnectorManager.init_conn_go_success connect errOf attempts delay s c hs hsA
    (attempts + 1) 1 le_rfl h1 (by omega) hfail
  rw [MysqlConnectorManager.init_conn, h, map_pow_comm, Nat.add_sub_cancel]

/-- Exhaustion behaviour of `MysqlDataManager.init_conn`
(`mysql_data_manager.py`): when every one of the `attempts` connect calls
fails, it makes exactly `attempts` calls and re-raises the last call's
driver error. -/
theorem MysqlDataManager.init_conn_exhausts
    (connect : Nat → Except DriverErr Conn) (errOf : Nat → DriverErr)
    (attempts delay : Nat) (h1 : 1 ≤ attempts)
    (hfail : ∀ a, 1 ≤ a → a ≤ attempts → connect a = .error (errOf a)) :
    MysqlDataManager.init_conn connect attempts delay =
      ⟨.raised (.driver (errOf attempts)), attempts,
       (List.range (attempts - 1)).map (fun i => delay ^ (i + 1))⟩ := by
  have h := MysqlDataManager.init_conn_go_exhausts connect errOf attempts delay
    (attempts + 1) 1 le_rfl h1 (by omega) hfail
  rw [MysqlDataManager.init_conn, h, map_pow_comm, Nat.add_sub_cancel]

/-- Success behaviour of `MysqlDataManager.init_conn`: if calls `1, …, s-1`
fail and call `s ≤ attempts` succeeds, the gate returns that handle after
exactly `s` calls. -/
theorem MysqlDataManager.init_conn_connects
    (connect : Nat → Except DriverErr Conn) (errOf : Nat → DriverErr)
    (attempts delay s : Nat) (c : Conn)
    (hs : connect s = .ok c) (h1 : 1 ≤ s) (hsA : s ≤ attempts)
    (hfail : ∀ a, 1 ≤ a → a < s → connect a = .error (errOf a)) :
    MysqlDataManager.init_conn connect attempts delay =
      ⟨.val c, s, (List.range (s - 1)).map (fun i => delay ^ (i + 1))⟩ := by
  have h := MysqlDataManager.init_conn_go_connects connect errOf attempts delay s c hs hsA
    (attempts + 1) 1 le_rfl h1 (by omega) hfail
  rw [MysqlDataManager.init_conn, h, map_pow_comm, Nat.add_sub_cancel]

/-- Claim C1: for every maximum attempt count `N ≥ 1` and every connect
function that fails deterministically on its first `K` calls and then
succeeds, `init_conn` returns a connection iff `K < N` and makes exactly
`min (K + 1) N` connect attempts — in particular, when it succeeds the
successful call is the last one made, so no further attempts follow the
first success.  Holds for the `classes.py` / `mysql_connector_manager.py`
variant (`None` sentinel) and the `mysql_data_manager.py` variant alike. -/
theorem claim_C1_retry_gate
    (connect : Nat → Except DriverErr Conn) (errOf : Nat → DriverErr) (conn : Nat → Conn)
    (N K delay : Nat) (hN : 1 ≤ N)
    (hfail : ∀ a, 1 ≤ a → a ≤ K → connect a = .error (errOf a))
    (hok : ∀ a, K < a → connect a = .ok (conn a)) :
    ((MysqlConnectorManager.init_conn connect N delay).result.isSome ↔ K < N) ∧
    (MysqlConnectorManager.init_conn connect N delay).attemptsMade = min (K + 1) N ∧
    ((∃ c, (MysqlDataManager.init_conn connect N delay).result = .val c) ↔ K < N) ∧
    (MysqlDataManager.init_conn connect N delay).attemptsMade = min (K + 1) N := by
  by_cases hKN : K < N
  · have h1 := MysqlConnectorManager.init_conn_first_ok connect errOf N delay (K + 1)
      (conn (K + 1)) (hok (K + 1) (by omega)) (by omega) (by omega)
      (fun a ha hb => hfail a ha (by omega))
    have h2 := MysqlDataManager.init_conn_connects connect errOf N delay (K + 1)
      (conn (K + 1)) (hok (K + 1) (by omega)) (by omega) (by omega)
      (fun a ha hb => hfail a ha (by omega))
    refine ⟨?_, ?_, ?_, ?_⟩
    · rw [h1]; simp [hKN]
    · rw [h1]; simp; omega
    · rw [h2]; simp [hKN]
    · rw [h2]; simp; omega
  · have hfail' : ∀ a, 1 ≤ a → a ≤ N → connect a = .error (errOf a) :=
      fun a ha hb => hfail a ha (by omega)
    have h1 := MysqlConnectorManager.init_conn_all_fail connect errOf N delay hN hfail'
    have h2 := MysqlDataManager.init_conn_exhausts connect errOf N delay hN hfail'
    refine ⟨?_, ?_, ?_, ?_⟩
    · rw [h1]; simp [hKN]
    · rw [h1]; simp; omega
    · rw [h2]; simp [hKN]
    · rw [h2]; simp; omega

/-- Witness for C1: three max attempts, two failures then success — the gate
connects on call 3 and makes `min (2 + 1) 3 = 3` attempts. -/
theorem claim_C1_retry_gate_witness :
    ((MysqlConnectorManager.init_conn (failsThenOk 2) 3 2).result.isSome ↔ 2 < 3) ∧
    (MysqlConnectorManager.init_conn (failsThenOk 2) 3 2).attemptsMade = min (2 + 1) 3 ∧
    ((∃ c, (MysqlDataManager.init_conn (failsThenOk 2) 3 2).result = .val c) ↔ 2 < 3) ∧
    (MysqlDataManager.init_conn (failsThenOk 2) 3 2).attemptsMade = min (2 + 1) 3 :=
  claim_C1_retry_gate (failsThenOk 2) (fun a => .connRefused a) (fun a => ⟨a⟩) 3 2 2
    (by omega)
    (fun a ha hb => by
      simp only [failsThenOk]
      rw [if_pos (by omega)])
    (fun a ha => by
      simp only [failsThenOk]
      rw [if_neg (by omega)])

/-- Claim C2: in `init_conn` the wait after the i-th failed attempt (i.e.
before attempt `i + 1`) is exactly `delay ^ i`, so the sleep list on
exhaustion with `N` attempts is `[delay^1, …, delay^(N-1)]` and the total
elapsed wait is `∑ i in [1, N-1], delay ^ i`; under a connect function that
fails on its first `K` calls and then succeeds, the sleeps are likewise
`delay^1, …, delay^(min K (N-1))`. -/
theorem claim_C2_backoff_schedule (N K delay : Nat) :
    (MysqlConnectorManager.init_conn allFail N delay).sleeps
        = (List.range (N - 1)).map (fun i => delay ^ (i + 1)) ∧
    (MysqlConnectorManager.init_conn allFail N delay).sleeps.sum
        = ∑ i ∈ Finset.Icc 1 (N - 1), delay ^ i ∧
    (MysqlConnectorManager.init_conn (failsThenOk K) N delay).sleeps
        = (List.range (min K (N - 1))).map (fun i => delay ^ (i + 1)) := by
  have hsum : ((List.range (N - 1)).map (fun i => delay ^ (i + 1))).sum
      = ∑ i ∈ Finset.Icc 1 (N - 1), delay ^ i := by
    rw [sum_list_range_map, ← Nat.Ico_succ_right, Finset.sum_Ico_eq_sum_range]
    simp [Nat.add_comm]
  rcases Nat.eq_zero_or_pos N with hN | hN
  · subst hN
    refine ⟨?_, ?_, ?_⟩ <;>
      simp [MysqlConnectorManager.init_conn, MysqlConnectorManager.init_conn_go]
  · have h1 := MysqlConnectorManager.init_conn_all_fail allFail (fun a => .connRefused a)
      N delay hN (fun a _ _ => rfl)
    refine ⟨by rw [h1], by rw [h1]; exact hsum, ?_⟩
    by_cases hKN : K < N
    · have h2 := MysqlConnectorManager.init_conn_first_ok (failsThenOk K)
        (fun a => .connRefused a) N delay (K + 1) ⟨K + 1⟩
        (by simp only [failsThenOk]; rw [if_neg (by omega)]) (by omega) (by omega)
        (fun a ha hb => by simp only [failsThenOk]; rw [if_pos (by omega)])
      rw [h2]
      have : min K (N - 1) = K := by omega
      rw [this]
      simp
    · have h2 := MysqlConnectorManager.init_conn_all_fail (failsThenOk K)
        (fun a => .connRefused a) N delay hN
        (fun a ha hb => by simp only [failsThenOk]; rw [if_pos (by omega)])
      rw [h2]
      have : min K (N - 1) = N - 1 := by omega
      rw [this]

/-- Claim C3 counterexample: with max attempts 3 and base delay 1 and an
unreachable host, the code sleeps `1^1 = 1` and then `1^2 = 1` seconds — the
waits are 1s and 1s, not 1s and 2s as the claim states. -/
theorem claim_C3_counterexample :
    (MysqlConnectorManager.init_conn allFail 3 1).sleeps = [1, 1] ∧
    (MysqlDataManager.init_conn allFail 3 1).sleeps = [1, 1] ∧
    [1, 1] ≠ ([1, 2] : List Nat) := by decide

/-- Claim C3 (amended): when the host is unreachable, `init_conn` with max
attempts 3 and base delay 1 makes exactly 3 attempts, waits 1 second before
attempt 2 and 1 second before attempt 3 (`1^1` and `1^2`), then reports
failure (`None` in `classes.py` / `mysql_connector_manager.py`; re-raised
error in `mysql_data_manager.py`) and makes no further attempts. -/
theorem claim_C3_exhaustion_example :
    MysqlConnectorManager.init_conn allFail 3 1 = ⟨none, 3, [1, 1]⟩ ∧
    MysqlDataManager.init_conn allFail 3 1 =
      ⟨.raised (.driver (.connRefused 3)), 3, [1, 1]⟩ := by decide

/-- Claim C4: when all `N` connect attempts fail, the variants disagree at
exhaustion — the `MysqlConnectorManager` variant (`classes.py` and
`mysql_connector_manager.py`) returns the absent value `None`, while
`MysqlDataManager.init_conn` re-raises the last driver error (the one from
call `N`); in no variant does exhaustion return a connection. -/
theorem claim_C4_exhaustion_policy
    (connect : Nat → Except DriverErr Conn) (errOf : Nat → DriverErr)
    (N delay : Nat) (hN : 1 ≤ N)
    (hfail : ∀ a, 1 ≤ a → a ≤ N → connect a = .error (errOf a)) :
    (MysqlConnectorManager.init_conn connect N delay).result = none ∧
    (MysqlDataManager.init_conn connect N delay).result = .raised (.driver (errOf N)) ∧
    (∀ c, (MysqlConnectorManager.init_conn connect N delay).result ≠ some c) ∧
    (∀ c, (MysqlDataManager.init_conn connect N delay).result ≠ .val c) := by
  have h1 := MysqlConnectorManager.init_conn_all_fail connect errOf N delay hN hfail
  have h2 := MysqlDataManager.init_conn_exhausts connect errOf N delay hN hfail
  rw [h1, h2]
  simp

/-- Witness for C4 at `N = 3`, every call refused. -/
theorem claim_C4_exhaustion_policy_witness :
    (MysqlConnectorManager.init_conn allFail 3 2).result = none ∧
    (MysqlDataManager.init_conn allFail 3 2).result =
      .raised (.driver (.connRefused 3)) ∧
    (∀ c, (MysqlConnectorManager.init_conn allFail 3 2).result ≠ some c) ∧
    (∀ c, (MysqlDataManager.init_conn allFail 3 2).result ≠ .val c) :=
  claim_C4_exhaustion_policy allFail (fun a => .connRefused a) 3 2 (by omega)
    (fun a _ _ => rfl)

/-- Shape of the `val` argument to `query`, mirroring the Python runtime
checks `isinstance(val, list)`, `isinstance(val, tuple)`, `not val`. -/
inductive PyVal
  /-- Python `None` (the default argument). -/
  | vNone
  /-- a Python `list` of parameter rows. -/
  | vList (rows : List Row)
  /-- a Python `tuple` of parameters. -/
  | vTuple (t : Row)
  /-- any other Python value, carrying only its truthiness
  (e.g. a non-empty dict or string is truthy). -/
  | vOther (truthy : Bool)
deriving DecidableEq

/-- Driver calls made on a live connection or its cursor, in order.  Only
calls that complete without raising are recorded. -/
inductive DbAction
  /-- `cursor.execute(sql)` -/
  | execute (sql : String)
  /-- `cursor.execute(sql, params)` -/
  | executeP (sql : String) (params : Row)
  /-- `cursor.executemany(sql, rows)` -/
  | executeMany (sql : String) (rows : List Row)
  /-- `connection.commit()` -/
  | commit
  /-- `connection.close()` -/
  | close
deriving DecidableEq

/-- Modelled from the spec: "batched execution, one row per payload" and
"Batch execution of M parameter rows against an otherwise-successful
statement yields `affectedCount == M`" — the driver's `executemany` (absent
from `src/`, it lives in the third-party driver) reports one affected row
per parameter row. -/
def executemanyRowcount : String → List Row → Except DriverErr Int :=
  fun _sql rows => .ok (rows.length : Int)

/-- `MysqlConnectorManager.select` of `classes.py` (lines 54-73): `mydb =
self.init_conn()` may be `None`, in which case `mydb.cursor()` raises
`AttributeError` (uncaught — the `except` clause covers only driver errors
around `execute`).  Otherwise execute the statement (re-raising driver
errors), fetch all rows, close, and return the list.  `execQuery sql` is the
driver's behaviour for `cursor.execute(sql)` followed by `fetchall()`. -/
def Classes.MysqlConnectorManager.select (mydb : Option Conn)
    (execQuery : String → Except DriverErr (List Row)) (sqlstring : String) :
    PyResult (List Row) × List DbAction :=
  match mydb with
  | Option.none => (.raised .attributeError, [])
  | some _ =>
    match execQuery sqlstring with
    | .error err => (.raised (.driver err), [])
    | .ok result => (.val result, [DbAction.execute sqlstring, DbAction.close])

/-- `MysqlConnectorManager.select` of `mysql_connector_manager.py`
(lines 52-75): same as the `classes.py` variant except that a driver error
during execution is logged and turned into a returned `None` (the
connection is not closed on that path). -/
def Mcm.MysqlConnectorManager.select (mydb : Option Conn)
    (execQuery : String → Except DriverErr (List Row)) (sqlstring : String) :
    PyResult (List Row) × List DbAction :=
  match mydb with
  | Option.none => (.raised .attributeError, [])
  | some _ =>
    match execQuery sqlstring with
    | .error _err => (.none, [])
    | .ok result => (.val result, [DbAction.execute sqlstring, DbAction.close])

/-- `SqliteDataManager.select` of `sqlite3_data_manager.py` (lines 72-94):
`init_conn` returns a connection or raises, so `mydb` is a genuine
connection here; execute (re-raising driver errors), fetch all, close,
return the list. -/
def SqliteDataManager.select (mydb : Conn)
    (execQuery : String → Except DriverErr (List Row)) (sqlstring : String) :
    PyResult (List Row) × List DbAction :=
  match execQuery sqlstring with
  | .error err => (.raised (.driver err), [])
  | .ok result => (.val result, [DbAction.execute sqlstring, DbAction.close])

/-- `MysqlConnectorManager.query` of `classes.py` (lines 75-102).  The cursor
dispatches on the shape of `val`: a `list` goes to `executemany`, a `tuple`
to a parameterized `execute`, a falsy value (including the default `None`)
to a plain `execute`, and a truthy non-list non-tuple value matches no
branch, leaving the cursor's DB-API initial `rowcount` of `-1` in place.
Driver errors are re-raised; on the non-raising path the connection commits,
closes, and the method returns `mycursor.rowcount`.  `execOne`, `execParam`,
`execMany` are the driver's affected-row behaviours for the three call
forms. -/
def Classes.MysqlConnectorManager.query (mydb : Option Conn)
    (execOne : String → Except DriverErr Int)
    (execParam : String → Row → Except DriverErr Int)
    (execMany : String → List Row → Except DriverErr Int)
    (sqlstring : String) (val : PyVal) : PyResult Int × List DbAction :=
  match mydb with
  | Option.none => (.raised .attributeError, [])
  | some _ =>
    let dispatched : Except DriverErr (Int × List DbAction) :=
      match val with
      | .vList rows =>
        (execMany sqlstring rows).map fun n => (n, [DbAction.executeMany sqlstring rows])
      | .vTuple t =>
        (execParam sqlstring t).map fun n => (n, [DbAction.executeP sqlstring t])
      | .vNone =>
        (execOne sqlstring).map fun n => (n, [DbAction.execute sqlstring])
      | .vOther truthy =>
        if truthy then .ok (-1, [])
        else (execOne sqlstring).map fun n => (n, [DbAction.execute sqlstring])
    match dispatched with
    | .error err => (.raised (.driver err), [])
    | .ok (n, acts) => (.val n, acts ++ [DbAction.commit, DbAction.close])

/-- `MysqlConnectorManager.query` of `mysql_connector_manager.py`
(lines 77-106): same dispatch as the `classes.py` variant, but a driver
error is logged and turned into a returned `None`. -/
def Mcm.MysqlConnectorManager.query (mydb : Option Conn)
    (execOne : String → Except DriverErr Int)
    (execParam : String → Row → Except DriverErr Int)
    (execMany : String → List Row → Except DriverErr Int)
    (sqlstring : String) (val : PyVal) : PyResult Int × List DbAction :=
  match mydb with
  | Option.none => (.raised .attributeError, [])
  | some _ =>
    let dispatched : Except DriverErr (Int × List DbAction) :=
      match val with
      | .vList rows =>
        (execMany sqlstring rows).map fun n => (n, [DbAction.executeMany sqlstring rows])
      | .vTuple t =>
        (execParam sqlstring t).map fun n => (n, [DbAction.executeP sqlstring t])
      | .vNone =>
        (execOne sqlstring).map fun n => (n, [DbAction.execute sqlstring])
      | .vOther truthy =>
        if truthy then .ok (-1, [])
        else (execOne sqlstring).map fun n => (n, [DbAction.execute sqlstring])
    match dispatched with
    | .error _err => (.none, [])
    | .ok (n, acts) => (.val n, acts ++ [DbAction.commit, DbAction.close])

/-- `SqliteDataManager.query` of `sqlite3_data_manager.py` (lines 108-137):
same dispatch and raise-on-error as the `classes.py` MySQL variant, with a
guaranteed connection. -/
def SqliteDataManager.query (mydb : Conn)
    (execOne : String → Except DriverErr Int)
    (execParam : String → Row → Except DriverErr Int)
    (execMany : String → List Row → Except DriverErr Int)
    (sqlstring : String) (val : PyVal) : PyResult Int × List DbAction :=
  let dispatched : Except DriverErr (Int × List DbAction) :=
    match val with
    | .vList rows =>
      (execMany sqlstring rows).map fun n => (n, [DbAction.executeMany sqlstring rows])
    | .vTuple t =>
      (execParam sqlstring t).map fun n => (n, [DbAction.executeP sqlstring t])
    | .vNone =>
      (execOne sqlstring).map fun n => (n, [DbAction.execute sqlstring])
    | .vOther truthy =>
      if truthy then .ok (-1, [])
      else (execOne sqlstring).map fun n => (n, [DbAction.execute sqlstring])
  match dispatched with
  | .error err => (.raised (.driver err), [])
  | .ok (n, acts) => (.val n, acts ++ [DbAction.commit, DbAction.close])

/-- Claim C5: `query` dispatches on the shape of `val` — a list triggers
`executemany` (one row per element, so a successful batch of `M` rows under
the spec's batch semantics reports `M` affected rows), a tuple a single
parameterized `execute`, an absent payload a plain `execute`; on success it
commits before closing and returns the cursor's affected-row count.  Holds
for `classes.py` `MysqlConnectorManager.query` and
`sqlite3_data_manager.py` `SqliteDataManager.query`. -/
theorem claim_C5_query_dispatch
    (c : Conn) (execOne : String → Except DriverErr Int)
    (execParam : String → Row → Except DriverErr Int)
    (sql : String) (rows : List Row) (t : Row) (n m : Int)
    (hOne : execOne sql = .ok n) (hParam : execParam sql t = .ok m) :
    (Classes.MysqlConnectorManager.query (some c) execOne execParam
        executemanyRowcount sql (.vList rows)
      = (.val (rows.length : Int),
         [.executeMany sql rows, .commit, .close])) ∧
    (Classes.MysqlConnectorManager.query (some c) execOne execParam
        executemanyRowcount sql (.vTuple t)
      = (.val m, [.executeP sql t, .commit, .close])) ∧
    (Classes.MysqlConnectorManager.query (some c) execOne execParam
        executemanyRowcount sql .vNone
      = (.val n, [.execute sql, .commit, .close])) ∧
    (SqliteDataManager.query c execOne execParam
        executemanyRowcount sql (.vList rows)
      = (.val (rows.length : Int),
         [.executeMany sql rows, .commit, .close])) ∧
    (SqliteDataManager.query c execOne execParam
        executemanyRowcount sql (.vTuple t)
      = (.val m, [.executeP sql t, .commit, .close])) ∧
    (SqliteDataManager.query c execOne execParam
        executemanyRowcount sql .vNone
      = (.val n, [.execute sql, .commit, .close])) := by
  simp [Classes.MysqlConnectorManager.query, SqliteDataManager.query,
    executemanyRowcount, hOne, hParam, Except.map]

/-- Witness for C5: a 2-row batch reports 2 affected rows; tuple and plain
forms return the driver's count. -/
theorem claim_C5_query_dispatch_witness :
    (Classes.MysqlConnectorManager.query (some ⟨0⟩) (fun _ => .ok 1)
        (fun _ _ => .ok 1) executemanyRowcount "ins" (.vList [[7], [8]])
      = (.val 2, [.executeMany "ins" [[7], [8]], .commit, .close])) ∧
    (Classes.MysqlConnectorManager.query (some ⟨0⟩) (fun _ => .ok 1)
        (fun _ _ => .ok 1) executemanyRowcount "ins" (.vTuple [7])
      = (.val 1, [.executeP "ins" [7], .commit, .close])) ∧
    (Classes.MysqlConnectorManager.query (some ⟨0⟩) (fun _ => .ok 1)
        (fun _ _ => .ok 1) executemanyRowcount "ins" .vNone
      = (.val 1, [.execute "ins", .commit, .close])) ∧
    (SqliteDataManager.query ⟨0⟩ (fun _ => .ok 1)
        (fun _ _ => .ok 1) executemanyRowcount "ins" (.vList [[7], [8]])
      = (.val 2, [.executeMany "ins" [[7], [8]], .commit, .close])) ∧
    (SqliteDataManager.query ⟨0⟩ (fun _ => .ok 1)
        (fun _ _ => .ok 1) executemanyRowcount "ins" (.vTuple [7])
      = (.val 1, [.executeP "ins" [7], .commit, .close])) ∧
    (SqliteDataManager.query ⟨0⟩ (fun _ => .ok 1)
        (fun _ _ => .ok 1) executemanyRowcount "ins" .vNone
      = (.val 1, [.execute "ins", .commit, .close])) :=
  claim_C5_query_dispatch ⟨0⟩ (fun _ => .ok 1) (fun _ _ => .ok 1)
    "ins" [[7], [8]] [7] 1 1 rfl rfl

/-- Claim C6: whenever connection establishment and statement execution
succeed, `select` executes the statement, fetches all rows into an ordered
list, closes the connection before returning, and returns that list — an
empty list, never `None`, when the result set is empty (`rows` may be
`[]`).  Holds for `classes.py` `MysqlConnectorManager.select` and
`sqlite3_data_manager.py` `SqliteDataManager.select`. -/
theorem claim_C6_select_success
    (c : Conn) (execQuery : String → Except DriverErr (List Row))
    (sql : String) (rows : List Row) (h : execQuery sql = .ok rows) :
    Classes.MysqlConnectorManager.select (some c) execQuery sql
      = (.val rows, [.execute sql, .close]) ∧
    SqliteDataManager.select c execQuery sql
      = (.val rows, [.execute sql, .close]) ∧
    PyResult.val rows ≠ PyResult.none := by
  simp [Classes.MysqlConnectorManager.select, SqliteDataManager.select, h]

/-- Witness for C6 on an empty result set: the returned value is `.val []`,
not `.none`. -/
theorem claim_C6_select_success_witness :
    Classes.MysqlConnectorManager.select (some ⟨0⟩) (fun _ => .ok []) "sel"
      = (.val [], [.execute "sel", .close]) ∧
    SqliteDataManager.select ⟨0⟩ (fun _ => .ok []) "sel"
      = (.val [], [.execute "sel", .close]) ∧
    PyResult.val ([] : List Row) ≠ PyResult.none :=
  claim_C6_select_success ⟨0⟩ (fun _ => .ok []) "sel" [] rfl

/-- Claim C8: in the variants whose `init_conn` returns `None` on retry
exhaustion (`classes.py` and `mysql_connector_manager.py`), `select` and
`query` call `.cursor()` on the returned value without a `None` check, so
when every connect attempt fails the public operation raises
`AttributeError` — which is neither a returned `None` nor a driver error. -/
theorem claim_C8_none_dereference
    (connect : Nat → Except DriverErr Conn) (errOf : Nat → DriverErr)
    (N delay : Nat) (hN : 1 ≤ N)
    (hfail : ∀ a, 1 ≤ a → a ≤ N → connect a = .error (errOf a))
    (execQuery : String → Except DriverErr (List Row))
    (execOne : String → Except DriverErr Int)
    (execParam : String → Row → Except DriverErr Int)
    (execMany : String → List Row → Except DriverErr Int)
    (sql : String) (val : PyVal) :
    (Classes.MysqlConnectorManager.select
        (MysqlConnectorManager.init_conn connect N delay).result execQuery sql
      = (.raised .attributeError, [])) ∧
    (Mcm.MysqlConnectorManager.select
        (MysqlConnectorManager.init_conn connect N delay).result execQuery sql
      = (.raised .attributeError, [])) ∧
    (Classes.MysqlConnectorManager.query
        (MysqlConnectorManager.init_conn connect N delay).result
        execOne execParam execMany sql val
      = (.raised .attributeError, [])) ∧
    (Mcm.MysqlConnectorManager.query
        (MysqlConnectorManager.init_conn connect N delay).result
        execOne execParam execMany sql val
      = (.raised .attributeError, [])) ∧
    (∀ e, (PyResult.raised PyErr.attributeError : PyResult (List Row))
      ≠ .raised (.driver e)) ∧
    ((PyResult.raised PyErr.attributeError : PyResult (List Row)) ≠ .none) := by
  have h1 := MysqlConnectorManager.init_conn_all_fail connect errOf N delay hN hfail
  rw [h1]
  refine ⟨rfl, rfl, rfl, rfl, fun e => by simp, by simp⟩

/-- Witness for C8 at `N = 3`, every call refused. -/
theorem claim_C8_none_dereference_witness :
    (Classes.MysqlConnectorManager.select
        (MysqlConnectorManager.init_conn allFail 3 2).result (fun _ => .ok []) "sel"
      = (.raised .attributeError, [])) ∧
    (Mcm.MysqlConnectorManager.select
        (MysqlConnectorManager.init_conn allFail 3 2).result (fun _ => .ok []) "sel"
      = (.raised .attributeError, [])) ∧
    (Classes.MysqlConnectorManager.query
        (MysqlConnectorManager.init_conn allFail 3 2).result
        (fun _ => .ok 1) (fun _ _ => .ok 1) executemanyRowcount "ins" .vNone
      = (.raised .attributeError, [])) ∧
    (Mcm.MysqlConnectorManager.query
        (MysqlConnectorManager.init_conn allFail 3 2).result
        (fun _ => .ok 1) (fun _ _ => .ok 1) executemanyRowcount "ins" .vNone
      = (.raised .attributeError, [])) ∧
    (∀ e, (PyResult.raised PyErr.attributeError : PyResult (List Row))
      ≠ .raised (.driver e)) ∧
    ((PyResult.raised PyErr.attributeError : PyResult (List Row)) ≠ .none) :=
  claim_C8_none_dereference allFail (fun a => .connRefused a) 3 2 (by omega)
    (fun a _ _ => rfl) (fun _ => .ok []) (fun _ => .ok 1) (fun _ _ => .ok 1)
    executemanyRowcount "sel" .vNone

/-- Claim C9: for a `val` that is truthy but neither a list nor a tuple,
`query` matches none of the three dispatch branches — it executes no
statement (for every driver behaviour the action trace holds no execute
call), yet still commits, closes, and returns the cursor's DB-API initial
row count `-1` without raising, in all three variants. -/
theorem claim_C9_truthy_noop
    (c : Conn) (execOne : String → Except DriverErr Int)
    (execParam : String → Row → Except DriverErr Int)
    (execMany : String → List Row → Except DriverErr Int) (sql : String) :
    Classes.MysqlConnectorManager.query (some c) execOne execParam execMany
        sql (.vOther true) = (.val (-1), [.commit, .close]) ∧
    Mcm.MysqlConnectorManager.query (some c) execOne execParam execMany
        sql (.vOther true) = (.val (-1), [.commit, .close]) ∧
    SqliteDataManager.query c execOne execParam execMany
        sql (.vOther true) = (.val (-1), [.commit, .close]) := by
  refine ⟨rfl, rfl, rfl⟩

/-- State of a file-based SQLite database: the number of tables reported by
`select name from sqlite_master where type='table';`. -/
structure SqliteDB where
  numTables : Nat
deriving DecidableEq

/-- Python truthiness of the `sql_script` constructor argument: `None` and
the empty string are falsy, any other string is truthy. -/
def pyTruthy : Option String → Bool
  | Option.none => false
  | some s => !(s == "")

/-- Result of `init_database`: the database state afterwards, whether
`conn.commit()` ran, and the error re-raised (if any). -/
structure InitDbOut where
  db : SqliteDB
  committed : Bool
  raised : Option DriverErr
deriving DecidableEq

/-- `SqliteDataManager.init_database` of `sqlite3_data_manager.py`
(lines 28-45).  `scriptOutcome` is the driver's behaviour for
`cursor.executescript(self.sql_script)`: on success, the number of tables
the script created; on failure, the raised `sqlite3.Error`.  A failure is
caught and only logged — nothing is raised and `conn.commit()` is never
reached.  (Partial effects of a failing script are not modelled; no claim
depends on them.) -/
def SqliteDataManager.init_database (scriptOutcome : Except DriverErr Nat)
    (db : SqliteDB) : InitDbOut :=
  match scriptOutcome with
  | .error _err => ⟨db, false, Option.none⟩
  | .ok created => ⟨⟨db.numTables + created⟩, true, Option.none⟩

/-- `SqliteDatamanager.init_database` of `classes.py` (lines 126-142): same
as the `sqlite3_data_manager.py` variant except that a script failure is
re-raised (`raise err`). -/
def SqliteDatamanager.init_database (scriptOutcome : Except DriverErr Nat)
    (db : SqliteDB) : InitDbOut :=
  match scriptOutcome with
  | .error err => ⟨db, false, some err⟩
  | .ok created => ⟨⟨db.numTables + created⟩, true, Option.none⟩

/-- Result of the SQLite `init_conn`: the Python-level outcome, the database
state afterwards, whether the bootstrap (`init_database`) was invoked, and
whether it committed. -/
structure SqliteInitConnOut where
  result : PyResult Conn
  db : SqliteDB
  ranBootstrap : Bool
  committed : Bool
deriving DecidableEq

/-- `SqliteDataManager.init_conn` of `sqlite3_data_manager.py`
(lines 47-70): connect (re-raising a connect failure), count the existing
tables, and if fewer than 2 and `self.sql_script` is truthy, run
`init_database`; finally return the connection.  `connectOutcome` is the
driver's behaviour for `sqlite3.connect(self.connection_string)`. -/
def SqliteDataManager.init_conn (sql_script : Option String)
    (scriptOutcome : Except DriverErr Nat)
    (connectOutcome : Except DriverErr Conn) (db : SqliteDB) :
    SqliteInitConnOut :=
  match connectOutcome with
  | .error err => ⟨.raised (.driver err), db, false, false⟩
  | .ok conn =>
    if db.numTables < 2 && pyTruthy sql_script then
      let o := SqliteDataManager.init_database scriptOutcome db
      match o.raised with
      | some err => ⟨.raised (.driver err), o.db, true, o.committed⟩
      | Option.none => ⟨.val conn, o.db, true, o.committed⟩
    else
      ⟨.val conn, db, false, false⟩

/-- `SqliteDatamanager.init_conn` of `classes.py` (lines 144-163): same
structure, but its `init_database` re-raises a script failure, which
propagates out of `init_conn`. -/
def SqliteDatamanager.init_conn (sql_script : Option String)
    (scriptOutcome : Except DriverErr Nat)
    (connectOutcome : Except DriverErr Conn) (db : SqliteDB) :
    SqliteInitConnOut :=
  match connectOutcome with
  | .error err => ⟨.raised (.driver err), db, false, false⟩
  | .ok conn =>
    if db.numTables < 2 && pyTruthy sql_script then
      let o := SqliteDatamanager.init_database scriptOutcome db
      match o.raised with
      | some err => ⟨.raised (.driver err), o.db, true, o.committed⟩
      | Option.none => ⟨.val conn, o.db, true, o.committed⟩
    else
      ⟨.val conn, db, false, false⟩

/-- Claim C7 counterexample: a truthy bootstrap script that creates only one
table runs on the first connection to a fresh (0-table) database file and
runs AGAIN on the second connection (the count is still below 2), so the
bootstrap does not run at most once per fresh database file. -/
theorem claim_C7_counterexample :
    (SqliteDataManager.init_conn (some "create table t") (.ok 1) (.ok ⟨0⟩)
        ⟨0⟩).ranBootstrap = true ∧
    (SqliteDataManager.init_conn (some "create table t") (.ok 1) (.ok ⟨0⟩)
        (SqliteDataManager.init_conn (some "create table t") (.ok 1) (.ok ⟨0⟩)
          ⟨0⟩).db).ranBootstrap = true := by decide

/-- Claim C7 (amended): on every successful connection, `init_conn` counts
the existing tables and runs the bootstrap iff the count is less than 2 and
a truthy script was supplied — executing the script and committing — and it
is a no-op whenever the database already has at least 2 tables, regardless
of script; on a fresh (empty) database file it runs at most once provided
the script creates at least 2 tables.  Holds for both
`sqlite3_data_manager.py` and `classes.py` variants. -/
theorem claim_C7_bootstrap
    (sql_script : Option String) (created : Nat) (c : Conn) (db : SqliteDB) :
    ((SqliteDataManager.init_conn sql_script (.ok created) (.ok c) db).ranBootstrap
        = true ↔ db.numTables < 2 ∧ pyTruthy sql_script = true) ∧
    ((SqliteDatamanager.init_conn sql_script (.ok created) (.ok c) db).ranBootstrap
        = true ↔ db.numTables < 2 ∧ pyTruthy sql_script = true) ∧
    (db.numTables < 2 → pyTruthy sql_script = true →
      SqliteDataManager.init_conn sql_script (.ok created) (.ok c) db
        = ⟨.val c, ⟨db.numTables + created⟩, true, true⟩) ∧
    (2 ≤ db.numTables →
      SqliteDataManager.init_conn sql_script (.ok created) (.ok c) db
          = ⟨.val c, db, false, false⟩ ∧
      SqliteDatamanager.init_conn sql_script (.ok created) (.ok c) db
          = ⟨.val c, db, false, false⟩) ∧
    (2 ≤ created → pyTruthy sql_script = true → ∀ c2,
      (SqliteDataManager.init_conn sql_script (.ok created) (.ok c) ⟨0⟩).ranBootstrap
          = true ∧
      (SqliteDataManager.init_conn sql_script (.ok created) (.ok c2)
          (SqliteDataManager.init_conn sql_script (.ok created) (.ok c) ⟨0⟩).db).ranBootstrap
          = false) := by
  refine ⟨?_, ?_, ?_, ?_, ?_⟩
  · by_cases hlt : db.numTables < 2 <;> by_cases hts : pyTruthy sql_script = true <;>
      simp [SqliteDataManager.init_conn, SqliteDataManager.init_database, hlt, hts]
  · by_cases hlt : db.numTables < 2 <;> by_cases hts : pyTruthy sql_script = true <;>
      simp [SqliteDatamanager.init_conn, SqliteDatamanager.init_database, hlt, hts]
  · intro h1 h2
    simp [SqliteDataManager.init_conn, SqliteDataManager.init_database, h1, h2]
  · intro h1
    constructor <;>
      simp [SqliteDataManager.init_conn, SqliteDatamanager.init_conn, Nat.not_lt.mpr h1]
  · intro h1 h2 c2
    have hfirst : SqliteDataManager.init_conn sql_script (.ok created) (.ok c) ⟨0⟩
        = ⟨.val c, ⟨created⟩, true, true⟩ := by
      simp [SqliteDataManager.init_conn, SqliteDataManager.init_database, h2]
    refine ⟨by rw [hfirst], ?_⟩
    rw [hfirst]
    have hng : ¬ (created < 2) := by omega
    simp [SqliteDataManager.init_conn, hng]

/-- Witness for C7: a script creating 2 tables bootstraps a fresh file and
commits; a 5-table database is untouched; after the first bootstrap a
second connection no longer bootstraps. -/
theorem claim_C7_bootstrap_witness :
    (SqliteDataManager.init_conn (some "schema") (.ok 2) (.ok ⟨0⟩) ⟨0⟩
      = ⟨.val ⟨0⟩, ⟨0 + 2⟩, true, true⟩) ∧
    (SqliteDataManager.init_conn (some "schema") (.ok 2) (.ok ⟨0⟩) ⟨5⟩
      = ⟨.val ⟨0⟩, ⟨5⟩, false, false⟩) ∧
    (SqliteDataManager.init_conn (some "schema") (.ok 2) (.ok ⟨1⟩)
        (SqliteDataManager.init_conn (some "schema") (.ok 2) (.ok ⟨0⟩)
          ⟨0⟩).db).ranBootstrap = false :=
  ⟨(claim_C7_bootstrap (some "schema") 2 ⟨0⟩ ⟨0⟩).2.2.1 (by decide) (by decide),
   ((claim_C7_bootstrap (some "schema") 2 ⟨0⟩ ⟨5⟩).2.2.2.1 (by decide)).1,
   ((claim_C7_bootstrap (some "schema") 2 ⟨0⟩ ⟨0⟩).2.2.2.2 (by decide) (by decide) ⟨1⟩).2⟩

/-- Claim C10: in `sqlite3_data_manager.py`, a failure while executing the
bootstrap script is caught by `init_database` and only logged — nothing is
raised, no commit is performed — and `init_conn` still returns the
connection as if the bootstrap had succeeded; unlike the `classes.py`
`SqliteDatamanager` variant, whose `init_database` re-raises the error
(which then propagates out of its `init_conn`). -/
theorem claim_C10_bootstrap_failure
    (e : DriverErr) (sql_script : Option String) (c : Conn) (db : SqliteDB)
    (hdb : db.numTables < 2) (hs : pyTruthy sql_script = true) :
    SqliteDataManager.init_database (.error e) db = ⟨db, false, Option.none⟩ ∧
    SqliteDataManager.init_conn sql_script (.error e) (.ok c) db
      = ⟨.val c, db, true, false⟩ ∧
    SqliteDatamanager.init_database (.error e) db = ⟨db, false, some e⟩ ∧
    SqliteDatamanager.init_conn sql_script (.error e) (.ok c) db
      = ⟨.raised (.driver e), db, true, false⟩ := by
  refine ⟨rfl, ?_, rfl, ?_⟩ <;>
    simp [SqliteDataManager.init_conn, SqliteDatamanager.init_conn,
      SqliteDataManager.init_database, SqliteDatamanager.init_database, hdb, hs]

/-- Witness for C10: a failing script on a fresh file — the
`sqlite3_data_manager.py` variant still hands out the connection with no
commit; the `classes.py` variant raises. -/
theorem claim_C10_bootstrap_failure_witness :
    SqliteDataManager.init_database (.error (.execFail 7)) ⟨0⟩
      = ⟨⟨0⟩, false, Option.none⟩ ∧
    SqliteDataManager.init_conn (some "schema") (.error (.execFail 7)) (.ok ⟨0⟩) ⟨0⟩
      = ⟨.val ⟨0⟩, ⟨0⟩, true, false⟩ ∧
    SqliteDatamanager.init_database (.error (.execFail 7)) ⟨0⟩
      = ⟨⟨0⟩, false, some (.execFail 7)⟩ ∧
    SqliteDatamanager.init_conn (some "schema") (.error (.execFail 7)) (.ok ⟨0⟩) ⟨0⟩
      = ⟨.raised (.driver (.execFail 7)), ⟨0⟩, true, false⟩ :=
  claim_C10_bootstrap_failure (.execFail 7) (some "schema") ⟨0⟩ ⟨0⟩
    (by decide) (by decide)
